import Mathlib

/-!
# GearGuard — verification of the maintenance-request lifecycle and scheduler

Shallow embedding of the core logic of the GearGuard equipment-maintenance
application (`maintenance/models.py`, `maintenance/views.py`,
`maintenance/forms.py`, `maintenance/mixins.py`, `maintenance/decorators.py`).

Modelling conventions:
* calendar dates are proleptic-Gregorian ordinals (`Int`, Python
  `date.toordinal` convention: 0001-01-01 = 1);
* wall-clock instants (`timezone.now()`) are integer second timestamps;
* `DecimalField` values are rationals (`ℚ`); Python `round(x, 2)` is modelled
  as exact round-half-to-even on rationals at 2 decimal places;
* Django text fields that may be NULL/blank are plain `String`s, with `""`
  playing the role of both NULL and blank (Python truthiness of both is false);
* foreign keys are surrogate `Nat` ids; the database is a `List` of records;
* each HTTP view mutating state becomes a function from the old state (and the
  acting user / clock) to either an error message (`Except.error`, nothing
  persists) or the new persisted state.
-/

namespace GearGuard

/-- Request lifecycle stage (`MaintenanceRequest.STAGE_CHOICES`). -/
inductive Stage
  | new
  | inProgress
  | repaired
  | scrap
deriving DecidableEq, Repr

/-- Request classification (`MaintenanceRequest.REQUEST_TYPE_CHOICES`). -/
inductive RequestType
  | corrective
  | preventive
deriving DecidableEq, Repr

/-- Request priority (`MaintenanceRequest.PRIORITY_CHOICES`). -/
inductive Priority
  | low
  | medium
  | high
  | critical
deriving DecidableEq, Repr

/-- `Equipment` model (the fields the lifecycle/scheduler logic reads or
writes).  Dates are `Option Int` ordinals; `maintenance_interval_days` is the
nullable `IntegerField`. -/
structure Equipment where
  id : Nat
  equipment_name : String
  serial_number : String
  maintenance_team : Nat
  default_technician : Option Nat
  purchase_date : Option Int
  maintenance_interval_days : Option Int
  is_scrapped : Bool
  scrap_date : Option Int
  scrap_reason : String
deriving DecidableEq, Repr

/-- `MaintenanceRequest` model.  `actual_start_time`/`actual_end_time` are
second timestamps, `duration_hours` a rational, text fields plain strings
(`""` = NULL/blank). -/
structure MaintenanceRequest where
  id : Nat
  subject : String
  request_type : RequestType
  stage : Stage
  priority : Priority
  equipment : Nat
  maintenance_team : Option Nat
  assigned_technician : Option Nat
  created_by : Nat
  scheduled_date : Option Int
  due_date : Option Int
  completed_date : Option Int
  estimated_duration_hours : Option ℚ
  duration_hours : Option ℚ
  actual_start_time : Option Int
  actual_end_time : Option Int
  is_overdue : Bool
  technician_notes : String
  resolution_summary : String
deriving DecidableEq, Repr

/-! ## Python value helpers -/

/-- Python truthiness of a nullable `Decimal` field: `None` and `0` are falsy
(`not request_obj.duration_hours`). -/
def decimalTruthy : Option ℚ → Bool
  | none => false
  | some q => q ≠ 0

/-- Python truthiness of a nullable integer field
(`not self.maintenance_interval_days`): `None` and `0` are falsy. -/
def intTruthy : Option Int → Bool
  | none => false
  | some n => n ≠ 0

/-- `str.strip()` (also what Django's `CharField` does to submitted text
before `clean` sees it): drop leading and trailing whitespace. -/
def pyStrip (s : String) : String :=
  ⟨(s.data.dropWhile Char.isWhitespace).reverse.dropWhile Char.isWhitespace |>.reverse⟩

/-- Round-half-to-even to an integer (the rounding of Python's builtin
`round`). -/
def roundHalfEven (q : ℚ) : Int :=
  let f : Int := ⌊q⌋
  let r : ℚ := q - f
  if r < 1/2 then f
  else if 1/2 < r then f + 1
  else if f % 2 = 0 then f else f + 1

/-- Python `round(x, 2)`: round-half-to-even at two decimal places. -/
def pyRound2 (q : ℚ) : ℚ := (roundHalfEven (q * 100) : ℚ) / 100

/-! ## Calendar arithmetic

Dates are stored as Python ordinals.  `toOrdinal` converts a proleptic
Gregorian `(year, month, day)` (year ≥ 1) to its ordinal, exactly as
`datetime.date.toordinal`; `monthrange`'s last-day output is `daysInMonth`. -/

/-- Gregorian leap-year test. -/
def isLeap (y : Nat) : Bool := y % 4 = 0 ∧ (y % 100 ≠ 0 ∨ y % 400 = 0)

/-- `calendar.monthrange(y, m).1`: number of days in a month. -/
def daysInMonth (y m : Nat) : Nat :=
  if m = 2 then (if isLeap y then 29 else 28)
  else if m = 4 ∨ m = 6 ∨ m = 9 ∨ m = 11 then 30
  else 31

/-- Days in the months strictly before month `m` of year `y`. -/
def daysBeforeMonth (y m : Nat) : Nat :=
  (List.range (m - 1)).foldl (fun acc i => acc + daysInMonth y (i + 1)) 0

/-- Days in all years strictly before year `y` (year ≥ 1). -/
def daysBeforeYear (y : Nat) : Nat :=
  (y - 1) * 365 + ((y - 1) / 4 - (y - 1) / 100) + (y - 1) / 400

/-- Python `date(y, m, d).toordinal()` for proleptic Gregorian dates with
`y ≥ 1` (0001-01-01 has ordinal 1). -/
def toOrdinal (y m d : Nat) : Int :=
  (daysBeforeYear y + daysBeforeMonth y m + d : Nat)

/-! ## `MaintenanceRequest.save` (models.py)

`save` recomputes `is_overdue` unconditionally and runs the equipment-scrap
cascade, then persists the request. -/

/-- The body of `MaintenanceRequest.save` (models.py lines 291–307): recompute
`is_overdue`, cascade the scrap onto the (required) linked equipment, persist.
Returns the persisted `(request, equipment)` pair. -/
def modelSave (today : Int) (r : MaintenanceRequest) (e : Equipment) :
    MaintenanceRequest × Equipment :=
  -- Auto-detect overdue status
  let r :=
    match r.scheduled_date with
    | some d =>
        if r.stage ≠ Stage.repaired ∧ r.stage ≠ Stage.scrap then
          { r with is_overdue := decide (d < today) }
        else
          { r with is_overdue := false }
    | none => { r with is_overdue := false }
  -- Scrap logic: if stage is Scrap, mark equipment as scrapped
  let e :=
    if r.stage = Stage.scrap then
      if ¬ e.is_scrapped then
        let e := { e with is_scrapped := true, scrap_date := some today }
        if r.resolution_summary ≠ "" then
          { e with scrap_reason := r.resolution_summary }
        else e
      else e
    else e
  (r, e)

/-! ## Technician AJAX endpoints (views.py `start_task`, `end_task`) -/

/-- `request_obj.maintenance_team not in technician_teams` with a nullable
team: a `None` team is never a member of the queryset. -/
def teamIn : Option Nat → List Nat → Bool
  | none, _ => false
  | some t, ts => t ∈ ts

/-- `start_task` (views.py lines 200–226): permission check (assigned
technician or member of the request's team), then set stage to In Progress,
unconditionally record `actual_start_time := now`, auto-assign the acting user
when no technician is assigned, and save. -/
def start_task (authed : Bool) (now today : Int) (user : Nat)
    (userTeams : List Nat) (r : MaintenanceRequest) (e : Equipment) :
    Except String (MaintenanceRequest × Equipment) :=
  if ¬ authed then Except.error "Authentication required"
  else if r.assigned_technician ≠ some user ∧ ¬ teamIn r.maintenance_team userTeams then
    Except.error "Permission denied"
  else
    let r := { r with stage := Stage.inProgress, actual_start_time := some now }
    let r :=
      if r.assigned_technician = none then { r with assigned_technician := some user }
      else r
    Except.ok (modelSave today r e)

/-- `end_task` (views.py lines 229–259): only the assigned technician, only a
started task; then unconditionally set `actual_end_time := now`, overwrite
`duration_hours` with the rounded start/end delta, set stage Repaired and
`completed_date := today`, and save. -/
def end_task (authed : Bool) (now today : Int) (user : Nat)
    (r : MaintenanceRequest) (e : Equipment) :
    Except String (MaintenanceRequest × Equipment) :=
  if ¬ authed then Except.error "Authentication required"
  else if r.assigned_technician ≠ some user then
    Except.error "Only assigned technician can end this task"
  else
    match r.actual_start_time with
    | none => Except.error "Task must be started before it can be ended"
    | some start =>
        let r := { r with
          actual_end_time := some now,
          duration_hours := some (pyRound2 (((now - start : Int) : ℚ) / 3600)),
          stage := Stage.repaired,
          completed_date := some today }
        Except.ok (modelSave today r e)

/-! ## Kanban drag-and-drop endpoint (views.py `update_request_stage`) -/

/-- The timestamp auto-set block of `update_request_stage` (views.py lines
1157–1173), run after the new stage has been written onto the request: moving
to In Progress fills a missing start time; moving to Repaired/Scrap fills a
missing end time, computes `duration_hours` when a start time exists and the
stored duration is falsy (the end time is guaranteed set at that point), and
fills a missing `completed_date`. -/
def kanbanAutoTimestamps (now today : Int) (newStage : Stage)
    (r : MaintenanceRequest) : MaintenanceRequest :=
  if newStage = Stage.inProgress ∧ r.actual_start_time = none then
    { r with actual_start_time := some now }
  else if newStage = Stage.repaired ∨ newStage = Stage.scrap then
    let r :=
      if r.actual_end_time = none then { r with actual_end_time := some now }
      else r
    let r :=
      match r.actual_start_time with
      | some start =>
          if ¬ decimalTruthy r.duration_hours then
            { r with
                duration_hours :=
                  some (pyRound2 (((r.actual_end_time.getD 0 - start : Int) : ℚ) / 3600)) }
          else r
      | none => r
    if r.completed_date = none then { r with completed_date := some today }
    else r
  else r

/-- `update_request_stage` (views.py lines 1143–1182): authentication check,
write the new stage, run the timestamp auto-set block, save. -/
def update_request_stage (authed : Bool) (now today : Int) (newStage : Stage)
    (r : MaintenanceRequest) (e : Equipment) :
    Except String (MaintenanceRequest × Equipment) :=
  if ¬ authed then Except.error "Authentication required"
  else
    Except.ok (modelSave today
      (kanbanAutoTimestamps now today newStage { r with stage := newStage }) e)

/-! ## Manager/Admin request update (views.py `MaintenanceRequestUpdateView`) -/

/-- Body of `MaintenanceRequestUpdateView.form_valid` (views.py lines
473–496), acting on the instance after the form has applied the submitted
technician/stage/priority: for Repaired/Scrap fill `completed_date` and
`actual_end_time` when missing and compute `duration_hours` when a start time
exists and the stored duration is falsy; else for In Progress fill a missing
start time. -/
def adminFormValid (now today : Int) (r : MaintenanceRequest) : MaintenanceRequest :=
  if r.stage = Stage.repaired ∨ r.stage = Stage.scrap then
    let r :=
      if r.completed_date = none then { r with completed_date := some today }
      else r
    let r :=
      if r.actual_end_time = none then { r with actual_end_time := some now }
      else r
    match r.actual_start_time with
    | some start =>
        if ¬ decimalTruthy r.duration_hours then
          { r with
              duration_hours :=
                some (pyRound2 (((r.actual_end_time.getD 0 - start : Int) : ℚ) / 3600)) }
        else r
    | none => r
  else if r.stage = Stage.inProgress ∧ r.actual_start_time = none then
    { r with actual_start_time := some now }
  else r

/-- Full `MaintenanceRequestUpdateView` POST on a loaded request: the form
(`MaintenanceRequestUpdateForm`, fields technician/stage/priority) applies the
submitted values, `form_valid` runs the auto-set logic, and the model is
saved. -/
def adminUpdate (now today : Int) (newTech : Option Nat) (newStage : Stage)
    (newPriority : Priority) (r : MaintenanceRequest) (e : Equipment) :
    MaintenanceRequest × Equipment :=
  let r := { r with assigned_technician := newTech, stage := newStage,
                    priority := newPriority }
  let r := adminFormValid now today r
  modelSave today r e

/-! ## Technician request update (forms.py `TechnicianRequestUpdateForm`,
views.py `TechnicianRequestDetailView`) -/

/-- Stage choices offered by `TechnicianRequestUpdateForm.__init__` (forms.py
lines 262–283) given the current stage of a saved instance. -/
def techStageChoices (current : Stage) : List Stage :=
  if current = Stage.new then [Stage.new, Stage.inProgress]
  else if current = Stage.inProgress then [Stage.inProgress, Stage.repaired, Stage.scrap]
  else if current = Stage.repaired then [Stage.repaired]
  else if current = Stage.scrap then [Stage.scrap]
  else [Stage.new, Stage.inProgress, Stage.repaired, Stage.scrap]

/-- `TechnicianRequestUpdateForm.clean` (forms.py lines 295–306) on the
cleaned (whitespace-stripped) field values: marking Repaired with a falsy
resolution summary is a validation error. -/
def technicianFormClean (stage : Stage) (resolution : String) : Except String Unit :=
  if stage = Stage.repaired ∧ resolution = "" then
    Except.error "Resolution summary is required when marking request as Repaired."
  else Except.ok ()

/-- Body of `TechnicianRequestDetailView.form_valid` (views.py lines
1010–1035) after the form applied the submitted field values: fill
`completed_date` only for Repaired; fill a missing start time for In
Progress; for Repaired/Scrap with no end time yet, set it to now and (when a
start time exists) overwrite `duration_hours` with the rounded delta; finally
auto-assign the acting user when no technician is assigned. -/
def technicianFormValid (now today : Int) (user : Nat)
    (r : MaintenanceRequest) : MaintenanceRequest :=
  let r :=
    if r.stage = Stage.repaired ∧ r.completed_date = none then
      { r with completed_date := some today }
    else r
  let r :=
    if r.stage = Stage.inProgress ∧ r.actual_start_time = none then
      { r with actual_start_time := some now }
    else r
  let r :=
    if (r.stage = Stage.repaired ∨ r.stage = Stage.scrap) ∧ r.actual_end_time = none then
      let r := { r with actual_end_time := some now }
      match r.actual_start_time with
      | some start =>
          { r with duration_hours := some (pyRound2 (((now - start : Int) : ℚ) / 3600)) }
      | none => r
    else r
  if r.assigned_technician = none then { r with assigned_technician := some user }
  else r

/-- Full `TechnicianRequestDetailView` POST: ownership/team access check
(`dispatch`), form stage-choice restriction and `clean` validation (a failing
form persists nothing), then `form_valid` and the model save. -/
def technicianUpdate (now today : Int) (user : Nat) (userTeams : List Nat)
    (newStage : Stage) (newDuration : Option ℚ)
    (newNotes newResolution : String)
    (r : MaintenanceRequest) (e : Equipment) :
    Except String (MaintenanceRequest × Equipment) :=
  if r.assigned_technician ≠ some user ∧ ¬ teamIn r.maintenance_team userTeams then
    Except.error "You don't have access to this maintenance request."
  else if newStage ∉ techStageChoices r.stage then
    Except.error "Select a valid choice."
  else
    let resolution := pyStrip newResolution
    match technicianFormClean newStage resolution with
    | Except.error msg => Except.error msg
    | Except.ok _ =>
        let r := { r with stage := newStage, duration_hours := newDuration,
                          technician_notes := pyStrip newNotes,
                          resolution_summary := resolution }
        let r := technicianFormValid now today user r
        Except.ok (modelSave today r e)

/-! ## Role-based access gate (mixins.py, decorators.py)

Roles are the `UserProfile.ROLE_CHOICES` strings.  A gated view either
redirects to login (unauthenticated), raises `PermissionDenied` with a
message, or proceeds. -/

/-- Outcome of a gate check. -/
inductive GateResult
  | loginRedirect
  | permissionDenied (msg : String)
  | granted
deriving DecidableEq, Repr

/-- The `PermissionDenied` message raised when an authenticated user has no
`UserProfile` record (the `AttributeError` branch of every mixin and of
`role_required`). -/
def profileMissingMsg : String :=
  "User profile not found. Please contact administrator."

/-- `AdminOrManagerRequiredMixin.dispatch` (mixins.py lines 77–92):
`profileRole` is `some role` when the user has a `UserProfile`, `none` when
the profile lookup raises `AttributeError`. -/
def adminOrManagerDispatch (authed : Bool) (profileRole : Option String) :
    GateResult :=
  if ¬ authed then GateResult.loginRedirect
  else
    match profileRole with
    | none => GateResult.permissionDenied profileMissingMsg
    | some role =>
        if role ∉ ["Admin", "Manager"] then
          GateResult.permissionDenied "Only administrators and managers can access this page."
        else GateResult.granted

/-- The denial message `role_required` builds for a role outside the allowed
set. -/
def roleDeniedMsg (allowedRoles : List String) : String :=
  "Access denied. Required roles: " ++ String.intercalate ", " allowedRoles

/-- `role_required(*allowed_roles)` wrapped view check (decorators.py lines
10–38): unauthenticated users are redirected by `login_required`; a missing
profile raises the profile-missing `PermissionDenied`; a role outside the
allowed set raises the access-denied `PermissionDenied`. -/
def roleRequiredGate (allowedRoles : List String) (authed : Bool)
    (profileRole : Option String) : GateResult :=
  if ¬ authed then GateResult.loginRedirect
  else
    match profileRole with
    | none => GateResult.permissionDenied profileMissingMsg
    | some role =>
        if role ∉ allowedRoles then
          GateResult.permissionDenied (roleDeniedMsg allowedRoles)
        else GateResult.granted

/-! ## Preventive-maintenance scheduler
(`Equipment.get_next_maintenance_date`, models.py lines 127–147) -/

/-- Strict order on a nullable date/time column as sorted by the repository's
PostgreSQL backend (database.py / populate_database.py): `ORDER BY col DESC`
puts NULLs first, i.e. `NULL` ranks above every value, so here `NULL` is
larger than every `some`. -/
def optLt : Option Int → Option Int → Bool
  | some _, none => true
  | some x, some y => decide (x < y)
  | _, _ => false

/-- Ordering key of `order_by('-completed_date', '-actual_end_time')`. -/
def reqKey (r : MaintenanceRequest) : Option Int × Option Int :=
  (r.completed_date, r.actual_end_time)

/-- Lexicographic strict order on the two-column key. -/
def keyLt (a b : Option Int × Option Int) : Bool :=
  optLt a.1 b.1 ∨ (a.1 = b.1 ∧ optLt a.2 b.2)

/-- `.first()` of the descending-ordered queryset: an element with maximal
key (earlier rows win ties). -/
def firstByKeyDesc : List MaintenanceRequest → Option MaintenanceRequest
  | [] => none
  | r :: rs =>
      match firstByKeyDesc rs with
      | none => some r
      | some best => if keyLt (reqKey r) (reqKey best) then some best else some r

/-- The queryset `filter(equipment=self, request_type='Preventive',
stage='Repaired')`. -/
def completedPreventiveFor (db : List MaintenanceRequest) (e : Equipment) :
    List MaintenanceRequest :=
  db.filter fun r =>
    r.equipment = e.id ∧ r.request_type = RequestType.preventive ∧
    r.stage = Stage.repaired

/-- `Equipment.get_next_maintenance_date`: `None` when the interval is falsy
(NULL or 0); else the `.first()` of the descending-ordered queryset (under
PostgreSQL a NULL `completed_date` row ranks first) supplies the service date
when it has one, otherwise the code falls back to (purchase date or today);
either base gets the interval added. -/
def get_next_maintenance_date (today : Int) (db : List MaintenanceRequest)
    (e : Equipment) : Option Int :=
  if ¬ intTruthy e.maintenance_interval_days then none
  else
    let n := e.maintenance_interval_days.getD 0
    match firstByKeyDesc (completedPreventiveFor db e) with
    | some last =>
        match last.completed_date with
        | some cd => some (cd + n)
        | none => some (e.purchase_date.getD today + n)
    | none => some (e.purchase_date.getD today + n)

/-! ## Preventive-maintenance calendar
(`PreventiveMaintenanceCalendarView.get_context_data`, views.py lines
513–643) -/

/-- One entry of the by-date mapping: `typ` is the `'scheduled'`/`'interval'`
tag; `pk` is `None` for projected entries. -/
structure CalendarEntry where
  typ : String
  subject : String
  equipment_name : String
  assigned_technician : Option Nat
  pk : Option Nat
  date : Int
deriving DecidableEq, Repr

/-- Equipment-table lookup of a request's (required) equipment FK. -/
def findEquip (equips : List Equipment) (i : Nat) : Option Equipment :=
  equips.find? fun e => e.id = i

/-- The explicit-request queryset: Preventive, scheduled inside the month,
not Repaired and not Scrap. -/
def explicitPreventive (db : List MaintenanceRequest) (startD endD : Int) :
    List MaintenanceRequest :=
  db.filter fun r =>
    decide (r.request_type = RequestType.preventive) &&
    (match r.scheduled_date with
     | some d => decide (startD ≤ d ∧ d ≤ endD)
     | none => false) &&
    decide (r.stage ≠ Stage.repaired ∧ r.stage ≠ Stage.scrap)

/-- Dict entry appended for an explicitly scheduled request. -/
def scheduledEntry (equips : List Equipment) (r : MaintenanceRequest) (d : Int) :
    CalendarEntry :=
  { typ := "scheduled", subject := r.subject,
    equipment_name := ((findEquip equips r.equipment).map Equipment.equipment_name).getD "",
    assigned_technician := r.assigned_technician,
    pk := some r.id, date := d }

/-- Dict entry appended for a projected (interval-derived) occurrence. -/
def intervalEntry (e : Equipment) (d : Int) : CalendarEntry :=
  { typ := "interval",
    subject := "Preventive Maintenance - " ++ e.equipment_name,
    equipment_name := e.equipment_name,
    assigned_technician := e.default_technician,
    pk := none, date := d }

/-- The suppression query: does a Preventive request (any stage except Scrap)
already exist for this equipment on exactly this date? -/
def hasExplicitNonScrap (db : List MaintenanceRequest) (eid : Nat) (d : Int) :
    Bool :=
  db.any fun r =>
    r.equipment = eid ∧ r.request_type = RequestType.preventive ∧
    r.scheduled_date = some d ∧ r.stage ≠ Stage.scrap

/-- The `while current_date <= end_date` generator, fuelled: successive dates
`current, current+interval, …` up to the month's last day. -/
def intervalOccurrences (interval endD : Int) : Nat → Int → List Int
  | 0, _ => []
  | Nat.succ fuel, current =>
      if current ≤ endD then
        current :: intervalOccurrences interval endD fuel (current + interval)
      else []

/-- Fuel sufficient for the generator (the loop adds at least one day per
iteration since eligible equipment has a positive interval). -/
def occFuel (next endD : Int) : Nat := (endD - next).toNat + 1

/-- Projected occurrence dates contributed by one equipment for the month
ending at `endD`: start at `get_next_maintenance_date`, step by the interval
while within the month, suppressing dates that already carry an explicit
non-Scrap Preventive request. -/
def projectedDatesFor (today : Int) (db : List MaintenanceRequest)
    (e : Equipment) (endD : Int) : List Int :=
  match get_next_maintenance_date today db e with
  | none => []
  | some next =>
      if next ≤ endD then
        (intervalOccurrences (e.maintenance_interval_days.getD 0) endD
            (occFuel next endD) next).filter
          fun d => ¬ hasExplicitNonScrap db e.id d
      else []

/-- The equipment queryset of the calendar view:
`maintenance_interval_days__gt=0, is_scrapped=False`. -/
def eligibleEquipment (equips : List Equipment) : List Equipment :=
  equips.filter fun e =>
    (match e.maintenance_interval_days with
     | some n => decide (0 < n)
     | none => false) && ! e.is_scrapped

/-- The `requests_by_date` mapping of the calendar view, read at date `d` of
month `(y, m)`: explicitly scheduled entries first (in queryset order), then
projected interval entries in equipment order. -/
def requestsByDate (today : Int) (db : List MaintenanceRequest)
    (equips : List Equipment) (y m : Nat) (d : Int) : List CalendarEntry :=
  let startD := toOrdinal y m 1
  let endD := toOrdinal y m (daysInMonth y m)
  ((explicitPreventive db startD endD).filter
      (fun r => r.scheduled_date = some d)).map (fun r => scheduledEntry equips r d)
    ++ (eligibleEquipment equips).flatMap fun e =>
        if d ∈ projectedDatesFor today db e endD then [intervalEntry e d] else []

/-- The `requests` list carried by the calendar-grid cell of day `day` of
month `(y, m)` (views.py lines 606–614). -/
def calendarCell (today : Int) (db : List MaintenanceRequest)
    (equips : List Equipment) (y m day : Nat) : List CalendarEntry :=
  requestsByDate today db equips y m (toOrdinal y m day)

/-! ## Concrete fixtures (used by witnesses and counterexamples) -/

/-- A non-scrapped piece of equipment with no interval configured. -/
def eqLathe : Equipment :=
  { id := 1, equipment_name := "Lathe", serial_number := "SN-001",
    maintenance_team := 1, default_technician := none, purchase_date := none,
    maintenance_interval_days := none, is_scrapped := false,
    scrap_date := none, scrap_reason := "" }

/-- A freshly created corrective request against `eqLathe`. -/
def baseReq : MaintenanceRequest :=
  { id := 1, subject := "Spindle jammed", request_type := RequestType.corrective,
    stage := Stage.new, priority := Priority.medium, equipment := 1,
    maintenance_team := some 1, assigned_technician := none, created_by := 2,
    scheduled_date := none, due_date := none, completed_date := none,
    estimated_duration_hours := none, duration_hours := none,
    actual_start_time := none, actual_end_time := none, is_overdue := false,
    technician_notes := "", resolution_summary := "" }

/-- A request in stage Scrap whose scheduled date lies in the past. -/
def reqPastScrap : MaintenanceRequest :=
  { baseReq with stage := Stage.scrap, scheduled_date := some 737999 }

/-- A request in stage Scrap carrying a resolution summary. -/
def reqScrapWithSummary : MaintenanceRequest :=
  { baseReq with stage := Stage.scrap, resolution_summary := "beyond economic repair" }

/-- An in-progress request with an assigned technician and no resolution
summary. -/
def reqC2 : MaintenanceRequest :=
  { baseReq with stage := Stage.inProgress, assigned_technician := some 7 }

/-- An in-progress started request whose operator already entered a manual
duration of 5 hours. -/
def reqC4 : MaintenanceRequest :=
  { baseReq with stage := Stage.inProgress, assigned_technician := some 7,
                 actual_start_time := some 0, duration_hours := some 5 }

/-- An in-progress started request against `eqLathe`, about to be scrapped by
its technician. -/
def reqC3 : MaintenanceRequest :=
  { baseReq with stage := Stage.inProgress, assigned_technician := some 7,
                 actual_start_time := some 0 }

/-- An in-progress request that was already started at time 100. -/
def reqC6 : MaintenanceRequest :=
  { baseReq with stage := Stage.inProgress, assigned_technician := some 7,
                 actual_start_time := some 100 }

/-- Equipment configured with a (storable, server-side unvalidated) negative
maintenance interval. -/
def eqNegInterval : Equipment :=
  { eqLathe with id := 2, maintenance_interval_days := some (-1),
                 purchase_date := some 738000 }

/-- Equipment with a 90-day interval purchased on 2023-01-15 (the end-to-end
scenario of the spec). -/
def eqQuarterly : Equipment :=
  { eqLathe with id := 3, maintenance_interval_days := some 90,
                 purchase_date := some (toOrdinal 2023 1 15) }

/-- Equipment on a 30-day maintenance cycle. -/
def eqMonthly : Equipment :=
  { eqLathe with id := 4, maintenance_interval_days := some 30 }

/-- A completed (Repaired) Preventive service of `eqMonthly` on
2023-05-01. -/
def reqMayService : MaintenanceRequest :=
  { baseReq with id := 9, equipment := 4, request_type := RequestType.preventive,
                 stage := Stage.repaired,
                 scheduled_date := some (toOrdinal 2023 4 1),
                 completed_date := some (toOrdinal 2023 5 1) }

/-! ## Helper lemmas shared across claims -/

/-- `MaintenanceRequest.save` only rewrites `is_overdue` on the request: every
other request field survives the save unchanged. -/
theorem modelSave_fields (today : Int) (r : MaintenanceRequest) (e : Equipment) :
    (modelSave today r e).1.stage = r.stage ∧
    (modelSave today r e).1.duration_hours = r.duration_hours ∧
    (modelSave today r e).1.actual_start_time = r.actual_start_time ∧
    (modelSave today r e).1.actual_end_time = r.actual_end_time ∧
    (modelSave today r e).1.completed_date = r.completed_date ∧
    (modelSave today r e).1.assigned_technician = r.assigned_technician ∧
    (modelSave today r e).1.resolution_summary = r.resolution_summary := by
  cases hsd : r.scheduled_date <;> simp only [modelSave, hsd] <;>
    first
      | (split_ifs <;> simp)
      | simp

/-- The kanban timestamp auto-set block never touches stage, technician or
resolution summary. -/
theorem kanbanAuto_untouched (now today : Int) (s : Stage) (r : MaintenanceRequest) :
    (kanbanAutoTimestamps now today s r).stage = r.stage ∧
    (kanbanAutoTimestamps now today s r).assigned_technician = r.assigned_technician ∧
    (kanbanAutoTimestamps now today s r).resolution_summary = r.resolution_summary := by
  cases hend : r.actual_end_time <;>
    cases hst : r.actual_start_time <;>
      simp [kanbanAutoTimestamps, hend, hst] <;> split_ifs <;> simp

/-- `MaintenanceRequestUpdateView.form_valid` never touches stage, technician
or resolution summary. -/
theorem adminFormValid_untouched (now today : Int) (r : MaintenanceRequest) :
    (adminFormValid now today r).stage = r.stage ∧
    (adminFormValid now today r).assigned_technician = r.assigned_technician ∧
    (adminFormValid now today r).resolution_summary = r.resolution_summary := by
  cases hend : r.actual_end_time <;>
    cases hst : r.actual_start_time <;>
      simp [adminFormValid, hend, hst] <;> split_ifs <;> simp_all

/-- `TechnicianRequestDetailView.form_valid` never touches stage or resolution
summary. -/
theorem technicianFormValid_untouched (now today : Int) (user : Nat)
    (r : MaintenanceRequest) :
    (technicianFormValid now today user r).stage = r.stage ∧
    (technicianFormValid now today user r).resolution_summary = r.resolution_summary := by
  cases hend : r.actual_end_time <;>
    cases hst : r.actual_start_time <;>
      simp [technicianFormValid, hend, hst] <;> split_ifs <;> simp_all

/-- Projection corollary of `modelSave_fields`. -/
theorem modelSave_stage (today : Int) (r : MaintenanceRequest) (e : Equipment) :
    (modelSave today r e).1.stage = r.stage :=
  (modelSave_fields today r e).1

/-- Projection corollary of `modelSave_fields`. -/
theorem modelSave_duration (today : Int) (r : MaintenanceRequest) (e : Equipment) :
    (modelSave today r e).1.duration_hours = r.duration_hours :=
  (modelSave_fields today r e).2.1

/-- Projection corollary of `modelSave_fields`. -/
theorem modelSave_start (today : Int) (r : MaintenanceRequest) (e : Equipment) :
    (modelSave today r e).1.actual_start_time = r.actual_start_time :=
  (modelSave_fields today r e).2.2.1

/-- Projection corollary of `modelSave_fields`. -/
theorem modelSave_end (today : Int) (r : MaintenanceRequest) (e : Equipment) :
    (modelSave today r e).1.actual_end_time = r.actual_end_time :=
  (modelSave_fields today r e).2.2.2.1

/-- Projection corollary of `modelSave_fields`. -/
theorem modelSave_completed (today : Int) (r : MaintenanceRequest) (e : Equipment) :
    (modelSave today r e).1.completed_date = r.completed_date :=
  (modelSave_fields today r e).2.2.2.2.1

/-- Projection corollary of `modelSave_fields`. -/
theorem modelSave_technician (today : Int) (r : MaintenanceRequest) (e : Equipment) :
    (modelSave today r e).1.assigned_technician = r.assigned_technician :=
  (modelSave_fields today r e).2.2.2.2.2.1

/-- Projection corollary of `kanbanAuto_untouched`. -/
theorem kanbanAuto_stage (now today : Int) (s : Stage) (r : MaintenanceRequest) :
    (kanbanAutoTimestamps now today s r).stage = r.stage :=
  (kanbanAuto_untouched now today s r).1

/-- Projection corollary of `kanbanAuto_untouched`. -/
theorem kanbanAuto_technician (now today : Int) (s : Stage) (r : MaintenanceRequest) :
    (kanbanAutoTimestamps now today s r).assigned_technician = r.assigned_technician :=
  (kanbanAuto_untouched now today s r).2.1

/-- Projection corollary of `adminFormValid_untouched`. -/
theorem adminFormValid_stage (now today : Int) (r : MaintenanceRequest) :
    (adminFormValid now today r).stage = r.stage :=
  (adminFormValid_untouched now today r).1

/-- Projection corollary of `adminFormValid_untouched`. -/
theorem adminFormValid_technician (now today : Int) (r : MaintenanceRequest) :
    (adminFormValid now today r).assigned_technician = r.assigned_technician :=
  (adminFormValid_untouched now today r).2.1

/-- Projection corollary of `technicianFormValid_untouched`. -/
theorem technicianFormValid_stage (now today : Int) (user : Nat)
    (r : MaintenanceRequest) :
    (technicianFormValid now today user r).stage = r.stage :=
  (technicianFormValid_untouched now today user r).1

/-! ## C1 — `is_overdue` recomputation on every save -/

/-- C1: after any `MaintenanceRequest.save`, `is_overdue` holds iff
`scheduled_date` is set, the stage is neither Repaired nor Scrap, and the
scheduled date is strictly before today — recomputed identically whatever
triggered the save; in particular a request saved in stage Scrap always ends
up with `is_overdue = false`. -/
theorem c1_is_overdue_recompute (today : Int) (r : MaintenanceRequest) (e : Equipment) :
    ((modelSave today r e).1.is_overdue = true ↔
      ∃ d, r.scheduled_date = some d ∧ d < today ∧
        r.stage ≠ Stage.repaired ∧ r.stage ≠ Stage.scrap)
    ∧ (r.stage = Stage.scrap → (modelSave today r e).1.is_overdue = false) := by
  cases hsd : r.scheduled_date with
  | none => simp [modelSave, hsd]
  | some d =>
      constructor
      · by_cases hst : r.stage ≠ Stage.repaired ∧ r.stage ≠ Stage.scrap
        · simp [modelSave, hsd, hst]
        · simp only [modelSave, hsd, if_neg hst]
          apply iff_of_false
          · simp
          · rintro ⟨d1, _, _, h1, h2⟩
            exact hst ⟨h1, h2⟩
      · intro hscrap
        have : ¬ (r.stage ≠ Stage.repaired ∧ r.stage ≠ Stage.scrap) := by
          simp [hscrap]
        simp [modelSave, hsd, this]

/-- C1 witness: saving `reqPastScrap` (scheduled 737999 < today 738000, stage
Scrap) recomputes `is_overdue` to `false` on that same save. -/
theorem c1_witness : (modelSave 738000 reqPastScrap eqLathe).1.is_overdue = false :=
  (c1_is_overdue_recompute 738000 reqPastScrap eqLathe).2 rfl

/-! ## C5 — equipment-scrap cascade and its idempotence -/

/-- C5: saving a request in stage Scrap whose equipment is not yet scrapped
sets `is_scrapped`, `scrap_date := today` and copies a non-empty resolution
summary into `scrap_reason` (an empty one leaves `scrap_reason` alone); if
the equipment is already scrapped the save leaves it untouched, and re-saving
the saved state never mutates the equipment again. -/
theorem c5_scrap_cascade (today : Int) (r : MaintenanceRequest) (e : Equipment)
    (hstage : r.stage = Stage.scrap) :
    (e.is_scrapped = false →
      ((modelSave today r e).2.is_scrapped = true ∧
       (modelSave today r e).2.scrap_date = some today ∧
       (r.resolution_summary ≠ "" →
         (modelSave today r e).2.scrap_reason = r.resolution_summary) ∧
       (r.resolution_summary = "" →
         (modelSave today r e).2.scrap_reason = e.scrap_reason)))
    ∧ (e.is_scrapped = true → (modelSave today r e).2 = e)
    ∧ (∀ today2 : Int,
        (modelSave today2 (modelSave today r e).1 (modelSave today r e).2).2 =
          (modelSave today r e).2) := by
  have hstage' : ¬ (r.stage ≠ Stage.repaired ∧ r.stage ≠ Stage.scrap) := by
    simp [hstage]
  refine ⟨?_, ?_, ?_⟩
  · intro hn
    by_cases hres : r.resolution_summary = "" <;>
      cases hsd : r.scheduled_date <;>
        simp [modelSave, hstage, hstage', hsd, hn, hres]
  · intro hy
    cases hsd : r.scheduled_date <;>
      simp [modelSave, hstage, hstage', hsd, hy]
  · intro today2
    by_cases hn : e.is_scrapped <;>
      by_cases hres : r.resolution_summary = "" <;>
        cases hsd : r.scheduled_date <;>
          simp [modelSave, hstage, hstage', hsd, hn, hres]

/-- C5 witness: scrapping `reqScrapWithSummary` against the unscrapped
`eqLathe` on day 738000 marks the equipment scrapped with `scrap_date`
738000 and copies the summary into `scrap_reason`. -/
theorem c5_witness :
    (modelSave 738000 reqScrapWithSummary eqLathe).2.is_scrapped = true ∧
    (modelSave 738000 reqScrapWithSummary eqLathe).2.scrap_date = some 738000 ∧
    (modelSave 738000 reqScrapWithSummary eqLathe).2.scrap_reason = "beyond economic repair" :=
  have h := (c5_scrap_cascade 738000 reqScrapWithSummary eqLathe rfl).1 rfl
  ⟨h.1, h.2.1, h.2.2.1 (by decide)⟩

/-! ## C10 — technician form stage choices -/

/-- C10: the technician update form offers, from New, only {New, In Progress};
from In Progress only {In Progress, Repaired, Scrap}; from Repaired only
{Repaired}; from Scrap only {Scrap} — so it never offers New → Scrap and
never offers a way out of a terminal stage. -/
theorem c10_stage_choices :
    techStageChoices Stage.new = [Stage.new, Stage.inProgress] ∧
    techStageChoices Stage.inProgress =
      [Stage.inProgress, Stage.repaired, Stage.scrap] ∧
    techStageChoices Stage.repaired = [Stage.repaired] ∧
    techStageChoices Stage.scrap = [Stage.scrap] ∧
    Stage.scrap ∉ techStageChoices Stage.new := by
  decide

/-! ## C2 — resolution-summary validation on the Repaired transition -/

/-- C2 (amended): only the technician update form enforces the
resolution-summary rule — through it, marking Repaired with an
empty/whitespace-only `resolution_summary` never persists anything; whereas
the kanban stage update, the manager update view, and `end_task` all
transition a request to Repaired without any resolution-summary check. -/
theorem c2_repaired_resolution_validation :
    (∀ (now today : Int) (user : Nat) (userTeams : List Nat)
        (newDuration : Option ℚ) (newNotes newResolution : String)
        (r : MaintenanceRequest) (e : Equipment)
        (out : MaintenanceRequest × Equipment),
        pyStrip newResolution = "" →
        technicianUpdate now today user userTeams Stage.repaired newDuration
          newNotes newResolution r e ≠ Except.ok out) ∧
    (∀ (now today : Int) (r : MaintenanceRequest) (e : Equipment),
        (update_request_stage true now today Stage.repaired r e).map
          (fun p => p.1.stage) = Except.ok Stage.repaired) ∧
    (∀ (now today : Int) (newTech : Option Nat) (newPriority : Priority)
        (r : MaintenanceRequest) (e : Equipment),
        (adminUpdate now today newTech Stage.repaired newPriority r e).1.stage =
          Stage.repaired) ∧
    (∀ (now today : Int) (user : Nat) (r : MaintenanceRequest) (e : Equipment)
        (s : Int),
        r.assigned_technician = some user → r.actual_start_time = some s →
        (end_task true now today user r e).map (fun p => p.1.stage) =
          Except.ok Stage.repaired) := by
  refine ⟨?_, ?_, ?_, ?_⟩
  · intro now today user userTeams newDuration newNotes newResolution r e out hres hok
    simp only [technicianUpdate, hres, technicianFormClean] at hok
    split_ifs at hok
    all_goals simp_all
  · intro now today r e
    simp [update_request_stage, Except.map, modelSave_stage, kanbanAuto_stage]
  · intro now today newTech newPriority r e
    simp [adminUpdate, modelSave_stage, adminFormValid_stage]
  · intro now today user r e s h1 h2
    simp [end_task, h1, h2, Except.map, modelSave_stage]

/-- C2 counterexample: the kanban endpoint transitions `reqC2` (whose
`resolution_summary` is empty) to Repaired and persists it — the claimed
universal validation failure does not happen on this operation. -/
theorem c2_counterexample :
    reqC2.resolution_summary = "" ∧
    (update_request_stage true 1000 738000 Stage.repaired reqC2 eqLathe).map
      (fun p => p.1.stage) = Except.ok Stage.repaired := by
  constructor
  · rfl
  · rfl

/-- C2 witness: the technician form path with whitespace-only resolution
summary refuses to persist the Repaired transition on concrete data. -/
theorem c2_witness :
    technicianUpdate 1000 738000 7 [] Stage.repaired none "" "   " reqC2 eqLathe ≠
      Except.ok (reqC2, eqLathe) :=
  c2_repaired_resolution_validation.1 1000 738000 7 [] none "" "   " reqC2 eqLathe
    (reqC2, eqLathe) (by decide)

/-! ## C4 — manual `duration_hours` overrides vs. automatic computation -/

/-- C4 (amended): the manager update view and the kanban stage update indeed
never overwrite a truthy (set and nonzero) `duration_hours`, and the
technician detail view preserves it whenever an end time is already recorded;
but `end_task` — also a completion transition to Repaired — always overwrites
`duration_hours` with the computed start/end delta. -/
theorem c4_duration_override :
    (∀ (now today : Int) (r : MaintenanceRequest),
        decimalTruthy r.duration_hours = true →
        (adminFormValid now today r).duration_hours = r.duration_hours) ∧
    (∀ (now today : Int) (newStage : Stage) (r : MaintenanceRequest),
        decimalTruthy r.duration_hours = true →
        (kanbanAutoTimestamps now today newStage r).duration_hours = r.duration_hours) ∧
    (∀ (now today : Int) (user : Nat) (r : MaintenanceRequest),
        r.actual_end_time ≠ none →
        (technicianFormValid now today user r).duration_hours = r.duration_hours) ∧
    (∀ (now today : Int) (user : Nat) (r : MaintenanceRequest) (e : Equipment)
        (s : Int),
        r.assigned_technician = some user → r.actual_start_time = some s →
        (end_task true now today user r e).map (fun p => p.1.duration_hours) =
          Except.ok (some (pyRound2 (((now - s : Int) : ℚ) / 3600)))) := by
  refine ⟨?_, ?_, ?_, ?_⟩
  · intro now today r htr
    cases hend : r.actual_end_time <;> cases hst : r.actual_start_time <;>
      simp [adminFormValid, hend, hst, htr] <;> split_ifs <;> simp_all
  · intro now today newStage r htr
    cases hend : r.actual_end_time <;> cases hst : r.actual_start_time <;>
      simp [kanbanAutoTimestamps, hend, hst, htr] <;> split_ifs <;> simp_all
  · intro now today user r hend'
    cases hend : r.actual_end_time
    · exact absurd hend hend'
    · cases hst : r.actual_start_time <;>
        simp [technicianFormValid, hend, hst] <;> split_ifs <;> simp_all
  · intro now today user r e s h1 h2
    simp [end_task, h1, h2, Except.map, modelSave_duration]

/-- C4 counterexample: ending `reqC4` (manual `duration_hours = 5`) one hour
after its start overwrites the manual value with the computed 1.00 — a
completion transition does overwrite an operator-set duration. -/
theorem c4_counterexample :
    reqC4.duration_hours = some 5 ∧
    (end_task true 3600 738000 7 reqC4 eqLathe).map
      (fun p => p.1.duration_hours) = Except.ok (some 1) := by
  refine ⟨rfl, ?_⟩
  norm_num [end_task, reqC4, eqLathe, baseReq, Except.map, modelSave,
    pyRound2, roundHalfEven]

/-- C4 witness: the kanban path keeps the manual duration of `reqC4` when it
is moved to Repaired. -/
theorem c4_witness :
    (kanbanAutoTimestamps 3600 738000 Stage.repaired reqC4).duration_hours = some 5 :=
  c4_duration_override.2.1 3600 738000 Stage.repaired reqC4 (by decide)

/-! ## C3 — derived duration / completion timestamps -/

/-- Once a request carries consistent start/end/duration values, a further
pass of the manager auto-set logic leaves `duration_hours` unchanged. -/
theorem adminFormValid_duration_keep (now today : Int) (r : MaintenanceRequest)
    (t s : Int) (hend : r.actual_end_time = some t)
    (hst : r.actual_start_time = some s)
    (hdur : r.duration_hours = some (pyRound2 (((t - s : Int) : ℚ) / 3600))) :
    (adminFormValid now today r).duration_hours = r.duration_hours := by
  by_cases h : r.stage = Stage.repaired ∨ r.stage = Stage.scrap
  · cases hcd : r.completed_date <;>
      by_cases htr : decimalTruthy r.duration_hours = true <;>
        (simp [adminFormValid, h, hend, hst, hcd, htr, hdur] <;>
          split_ifs <;> simp_all)
  · simp [adminFormValid, h] <;> split_ifs <;> simp_all

/-- Once a request carries consistent start/end/duration values, a further
pass of the kanban auto-set block leaves `duration_hours` unchanged. -/
theorem kanbanAuto_duration_keep (now today : Int) (ns : Stage)
    (r : MaintenanceRequest) (t s : Int) (hend : r.actual_end_time = some t)
    (hst : r.actual_start_time = some s)
    (hdur : r.duration_hours = some (pyRound2 (((t - s : Int) : ℚ) / 3600))) :
    (kanbanAutoTimestamps now today ns r).duration_hours = r.duration_hours := by
  by_cases h : ns = Stage.repaired ∨ ns = Stage.scrap
  · cases hcd : r.completed_date <;>
      by_cases htr : decimalTruthy r.duration_hours = true <;>
        (simp [kanbanAutoTimestamps, h, hend, hst, hcd, htr, hdur] <;>
          split_ifs <;> simp_all)
  · simp [kanbanAutoTimestamps, h, hend] <;> split_ifs <;> simp_all

/-- The technician auto-set logic never touches `duration_hours` when an end
time is already recorded. -/
theorem technicianFormValid_duration_keep (now today : Int) (user : Nat)
    (r : MaintenanceRequest) (t : Int) (hend : r.actual_end_time = some t) :
    (technicianFormValid now today user r).duration_hours = r.duration_hours := by
  cases hst : r.actual_start_time <;>
    simp [technicianFormValid, hend, hst] <;> split_ifs <;> simp_all

/-- C3 (amended): a completion transition (to Repaired or Scrap) with a start
time set and end time/duration unset computes `duration_hours` as the rounded
start/end delta with `actual_end_time = now`, and re-running the auto-set
logic without changing the times never changes `duration_hours`;
`completed_date` is set to today by the manager update view and the kanban
stage update, but the technician detail view sets it only for Repaired — a
Scrap transition there leaves `completed_date` unset. -/
theorem c3_completion_duration :
    (∀ (now today : Int) (r : MaintenanceRequest) (s : Int),
        r.stage = Stage.repaired ∨ r.stage = Stage.scrap →
        r.actual_start_time = some s → r.actual_end_time = none →
        r.duration_hours = none →
        (adminFormValid now today r).duration_hours =
          some (pyRound2 (((now - s : Int) : ℚ) / 3600)) ∧
        (adminFormValid now today r).actual_end_time = some now ∧
        (adminFormValid now today r).actual_start_time = some s ∧
        (r.completed_date = none →
          (adminFormValid now today r).completed_date = some today) ∧
        (∀ now2 today2 : Int,
          (adminFormValid now2 today2 (adminFormValid now today r)).duration_hours =
            (adminFormValid now today r).duration_hours)) ∧
    (∀ (now today : Int) (ns : Stage) (r : MaintenanceRequest) (s : Int),
        ns = Stage.repaired ∨ ns = Stage.scrap →
        r.actual_start_time = some s → r.actual_end_time = none →
        r.duration_hours = none →
        (kanbanAutoTimestamps now today ns r).duration_hours =
          some (pyRound2 (((now - s : Int) : ℚ) / 3600)) ∧
        (kanbanAutoTimestamps now today ns r).actual_end_time = some now ∧
        (kanbanAutoTimestamps now today ns r).actual_start_time = some s ∧
        (r.completed_date = none →
          (kanbanAutoTimestamps now today ns r).completed_date = some today) ∧
        (∀ now2 today2 : Int,
          (kanbanAutoTimestamps now2 today2 ns
              (kanbanAutoTimestamps now today ns r)).duration_hours =
            (kanbanAutoTimestamps now today ns r).duration_hours)) ∧
    (∀ (now today : Int) (user : Nat) (r : MaintenanceRequest) (s : Int),
        r.stage = Stage.repaired ∨ r.stage = Stage.scrap →
        r.actual_start_time = some s → r.actual_end_time = none →
        (technicianFormValid now today user r).duration_hours =
          some (pyRound2 (((now - s : Int) : ℚ) / 3600)) ∧
        (technicianFormValid now today user r).actual_end_time = some now ∧
        (r.stage = Stage.repaired → r.completed_date = none →
          (technicianFormValid now today user r).completed_date = some today) ∧
        (r.stage = Stage.scrap →
          (technicianFormValid now today user r).completed_date =
            r.completed_date) ∧
        (∀ (now2 today2 : Int) (user2 : Nat),
          (technicianFormValid now2 today2 user2
              (technicianFormValid now today user r)).duration_hours =
            (technicianFormValid now today user r).duration_hours)) := by
  refine ⟨?_, ?_, ?_⟩
  · intro now today r s hstage hst hend hdur
    have key :
        (adminFormValid now today r).duration_hours =
          some (pyRound2 (((now - s : Int) : ℚ) / 3600)) ∧
        (adminFormValid now today r).actual_end_time = some now ∧
        (adminFormValid now today r).actual_start_time = some s ∧
        (r.completed_date = none →
          (adminFormValid now today r).completed_date = some today) := by
      rcases hstage with h | h <;>
        cases hcd : r.completed_date <;>
          simp [adminFormValid, h, hst, hend, hdur, hcd, decimalTruthy]
    exact ⟨key.1, key.2.1, key.2.2.1, key.2.2.2, fun now2 today2 =>
      adminFormValid_duration_keep now2 today2 _ now s key.2.1 key.2.2.1 key.1⟩
  · intro now today ns r s hstage hst hend hdur
    have key :
        (kanbanAutoTimestamps now today ns r).duration_hours =
          some (pyRound2 (((now - s : Int) : ℚ) / 3600)) ∧
        (kanbanAutoTimestamps now today ns r).actual_end_time = some now ∧
        (kanbanAutoTimestamps now today ns r).actual_start_time = some s ∧
        (r.completed_date = none →
          (kanbanAutoTimestamps now today ns r).completed_date = some today) := by
      rcases hstage with h | h <;>
        cases hcd : r.completed_date <;>
          simp [kanbanAutoTimestamps, h, hst, hend, hdur, hcd, decimalTruthy]
    exact ⟨key.1, key.2.1, key.2.2.1, key.2.2.2, fun now2 today2 =>
      kanbanAuto_duration_keep now2 today2 ns _ now s key.2.1 key.2.2.1 key.1⟩
  · intro now today user r s hstage hst hend
    have key :
        (technicianFormValid now today user r).duration_hours =
          some (pyRound2 (((now - s : Int) : ℚ) / 3600)) ∧
        (technicianFormValid now today user r).actual_end_time = some now ∧
        (r.stage = Stage.repaired → r.completed_date = none →
          (technicianFormValid now today user r).completed_date = some today) ∧
        (r.stage = Stage.scrap →
          (technicianFormValid now today user r).completed_date =
            r.completed_date) := by
      rcases hstage with h | h <;>
        cases hcd : r.completed_date <;>
          cases hass : r.assigned_technician <;>
            simp [technicianFormValid, h, hst, hend, hcd, hass]
    exact ⟨key.1, key.2.1, key.2.2.1, key.2.2.2, fun now2 today2 user2 =>
      technicianFormValid_duration_keep now2 today2 user2 _ now key.2.1⟩

/-- C3 counterexample: the technician detail view transitions `reqC3` to
Scrap (computing `duration_hours = 1.00` from the times) yet persists it with
`completed_date` still unset, not today. -/
theorem c3_counterexample :
    (technicianUpdate 3600 738000 7 [] Stage.scrap none "" "" reqC3 eqLathe).map
      (fun p => (p.1.stage, p.1.completed_date)) =
      Except.ok (Stage.scrap, none) := by
  rfl

/-- C3 witness: the manager auto-set logic on `reqC3` marked Repaired at time
3600 yields end time 3600, start time 0 and completion date today. -/
theorem c3_witness :
    (adminFormValid 3600 738000 { reqC3 with stage := Stage.repaired }).actual_end_time =
      some 3600 ∧
    (adminFormValid 3600 738000 { reqC3 with stage := Stage.repaired }).completed_date =
      some 738000 :=
  have h := c3_completion_duration.1 3600 738000
    { reqC3 with stage := Stage.repaired } 0 (Or.inl rfl) rfl rfl rfl
  ⟨h.2.1, h.2.2.2.1 rfl⟩

/-! ## C6 — side effects of moving a request to In Progress -/

/-- C6 (amended): `start_task` always overwrites `actual_start_time` with now
(even when it was already set), while the kanban stage update and the manager
update view set it only when unset; the acting technician is auto-assigned by
`start_task` only when no technician is assigned yet. -/
theorem c6_start_side_effects :
    (∀ (now today : Int) (user : Nat) (teams : List Nat)
        (r : MaintenanceRequest) (e : Equipment)
        (p : MaintenanceRequest × Equipment),
        start_task true now today user teams r e = Except.ok p →
        p.1.actual_start_time = some now ∧ p.1.stage = Stage.inProgress ∧
        (r.assigned_technician = none → p.1.assigned_technician = some user) ∧
        (∀ t, r.assigned_technician = some t →
          p.1.assigned_technician = some t)) ∧
    (∀ (now today : Int) (r : MaintenanceRequest),
        (r.actual_start_time = none →
          (kanbanAutoTimestamps now today Stage.inProgress r).actual_start_time =
            some now) ∧
        (∀ s, r.actual_start_time = some s →
          (kanbanAutoTimestamps now today Stage.inProgress r).actual_start_time =
            some s)) ∧
    (∀ (now today : Int) (r : MaintenanceRequest),
        r.stage = Stage.inProgress →
        (r.actual_start_time = none →
          (adminFormValid now today r).actual_start_time = some now) ∧
        (∀ s, r.actual_start_time = some s →
          (adminFormValid now today r).actual_start_time = some s)) := by
  refine ⟨?_, ?_, ?_⟩
  · intro now today user teams r e p hok
    simp only [start_task] at hok
    split_ifs at hok
    all_goals
      first
        | exact Except.noConfusion hok
        | (simp only [Except.ok.injEq] at hok
           subst hok
           simp_all [modelSave_start, modelSave_stage, modelSave_technician])
  · intro now today r
    constructor
    · intro h
      simp [kanbanAutoTimestamps, h]
    · intro s h
      simp [kanbanAutoTimestamps, h]
  · intro now today r hstage
    constructor
    · intro h
      simp [adminFormValid, hstage, h]
    · intro s h
      simp [adminFormValid, hstage, h]

/-- C6 counterexample: invoking `start_task` at time 200 on `reqC6` (already
started at time 100) overwrites the recorded start time — the claimed
preserve-when-set behavior does not hold for this operation. -/
theorem c6_counterexample :
    reqC6.actual_start_time = some 100 ∧
    (start_task true 200 738000 7 [] reqC6 eqLathe).map
      (fun p => p.1.actual_start_time) = Except.ok (some 200) := by
  exact ⟨rfl, rfl⟩

/-- C6 witness: the kanban path moving the unstarted `reqC2` to In Progress at
time 200 records start time 200. -/
theorem c6_witness :
    (kanbanAutoTimestamps 200 738000 Stage.inProgress reqC2).actual_start_time =
      some 200 :=
  (c6_start_side_effects.2.1 200 738000 reqC2).1 rfl

/-! ## C7 — next preventive maintenance date -/

/-- `optLt` is irreflexive. -/
theorem optLt_irrefl (a : Option Int) : optLt a a = false := by
  cases a <;> simp [optLt]

/-- `keyLt` is irreflexive. -/
theorem keyLt_irrefl (a : Option Int × Option Int) : keyLt a a = false := by
  simp [keyLt, optLt_irrefl]

/-- `keyLt` is asymmetric. -/
theorem keyLt_asymm {a b : Option Int × Option Int} (h : keyLt a b = true) :
    keyLt b a = false := by
  obtain ⟨a1, a2⟩ := a
  obtain ⟨b1, b2⟩ := b
  cases a1 <;> cases b1 <;> cases a2 <;> cases b2 <;>
    simp_all [keyLt, optLt] <;> omega

/-- Non-strict comparison (`keyLt · · = false`) is transitive. -/
theorem keyLt_false_trans {a b c : Option Int × Option Int}
    (h1 : keyLt a b = false) (h2 : keyLt b c = false) : keyLt a c = false := by
  obtain ⟨a1, a2⟩ := a
  obtain ⟨b1, b2⟩ := b
  obtain ⟨c1, c2⟩ := c
  cases a1 <;> cases b1 <;> cases c1 <;> cases a2 <;> cases b2 <;> cases c2 <;>
    simp_all [keyLt, optLt] <;> omega

/-- `.first()` of the ordered queryset is `None` exactly on the empty
queryset. -/
theorem firstByKeyDesc_eq_none {l : List MaintenanceRequest} :
    firstByKeyDesc l = none ↔ l = [] := by
  cases l with
  | nil => simp [firstByKeyDesc]
  | cons a rest =>
      simp only [firstByKeyDesc]
      cases h : firstByKeyDesc rest <;> simp [h]
      split_ifs <;> simp

/-- `.first()` returns an element of the queryset. -/
theorem firstByKeyDesc_mem :
    ∀ {l : List MaintenanceRequest} {r}, firstByKeyDesc l = some r → r ∈ l := by
  intro l
  induction l with
  | nil => intro r h; simp [firstByKeyDesc] at h
  | cons a rest ih =>
      intro r h
      cases hrec : firstByKeyDesc rest with
      | none =>
          simp only [firstByKeyDesc, hrec, Option.some.injEq] at h
          subst h
          exact List.mem_cons_self a rest
      | some best =>
          simp only [firstByKeyDesc, hrec] at h
          by_cases hk : keyLt (reqKey a) (reqKey best) = true
          · rw [if_pos hk] at h
            simp only [Option.some.injEq] at h
            subst h
            exact List.mem_cons_of_mem a (ih hrec)
          · rw [if_neg hk] at h
            simp only [Option.some.injEq] at h
            subst h
            exact List.mem_cons_self a rest

/-- `.first()` of the descending-ordered queryset carries a maximal key. -/
theorem firstByKeyDesc_max :
    ∀ {l : List MaintenanceRequest} {r}, firstByKeyDesc l = some r →
      ∀ m ∈ l, keyLt (reqKey r) (reqKey m) = false := by
  intro l
  induction l with
  | nil => intro r h; simp [firstByKeyDesc] at h
  | cons a rest ih =>
      intro r h m hm
      cases hrec : firstByKeyDesc rest with
      | none =>
          simp only [firstByKeyDesc, hrec, Option.some.injEq] at h
          subst h
          have : rest = [] := firstByKeyDesc_eq_none.1 hrec
          subst this
          rcases List.mem_singleton.1 hm with rfl
          exact keyLt_irrefl _
      | some best =>
          simp only [firstByKeyDesc, hrec] at h
          by_cases hk : keyLt (reqKey a) (reqKey best) = true
          · rw [if_pos hk] at h
            simp only [Option.some.injEq] at h
            subst h
            rcases List.mem_cons.1 hm with rfl | hm'
            · exact keyLt_asymm hk
            · exact ih hrec m hm'
          · rw [if_neg hk] at h
            simp only [Option.some.injEq] at h
            subst h
            rcases List.mem_cons.1 hm with rfl | hm'
            · exact keyLt_irrefl _
            · exact keyLt_false_trans (Bool.not_eq_true _ ▸ hk :
                keyLt (reqKey a) (reqKey best) = false) (ih hrec m hm')

/-- C7 (amended): `get_next_maintenance_date` returns none exactly when the
interval is NULL or 0 (a negative interval still yields a date).  With a
truthy interval, PostgreSQL sorts NULLs first under `DESC`, so `.first()`
prefers a Repaired Preventive row with NULL `completed_date`: when the
queryset is empty or contains such a row, the result is (purchase date if
known, else today) plus the interval; only when every such request carries a
completion date does the function return the maximal completion date plus the
interval. -/
theorem c7_next_maintenance_date :
    (∀ (today : Int) (db : List MaintenanceRequest) (e : Equipment),
        get_next_maintenance_date today db e = none ↔
          (e.maintenance_interval_days = none ∨
           e.maintenance_interval_days = some 0)) ∧
    (∀ (today : Int) (db : List MaintenanceRequest) (e : Equipment) (n : Int),
        e.maintenance_interval_days = some n → n ≠ 0 →
        (completedPreventiveFor db e = [] →
          get_next_maintenance_date today db e =
            some (e.purchase_date.getD today + n)) ∧
        ((∃ m ∈ completedPreventiveFor db e, m.completed_date = none) →
          get_next_maintenance_date today db e =
            some (e.purchase_date.getD today + n)) ∧
        (∀ (m : MaintenanceRequest) (cd : Int),
          (∀ m2 ∈ completedPreventiveFor db e, m2.completed_date ≠ none) →
          m ∈ completedPreventiveFor db e → m.completed_date = some cd →
          (∀ m2 ∈ completedPreventiveFor db e, ∀ cd2 : Int,
            m2.completed_date = some cd2 → cd2 ≤ cd) →
          get_next_maintenance_date today db e = some (cd + n))) := by
  constructor
  · intro today db e
    cases hn : e.maintenance_interval_days with
    | none => simp [get_next_maintenance_date, intTruthy, hn]
    | some n =>
        by_cases h0 : n = 0
        · subst h0
          simp [get_next_maintenance_date, intTruthy, hn]
        · cases h : firstByKeyDesc (completedPreventiveFor db e) with
          | none => simp [get_next_maintenance_date, intTruthy, hn, h0, h]
          | some last =>
              cases hcd : last.completed_date <;>
                simp [get_next_maintenance_date, intTruthy, hn, h0, h, hcd]
  · intro today db e n hn h0
    refine ⟨?_, ?_, ?_⟩
    · intro hempty
      simp [get_next_maintenance_date, intTruthy, hn, h0, hempty, firstByKeyDesc]
    · rintro ⟨m, hm, hmn⟩
      cases h : firstByKeyDesc (completedPreventiveFor db e) with
      | none =>
          rw [firstByKeyDesc_eq_none.1 h] at hm
          exact absurd hm (List.not_mem_nil m)
      | some last =>
          have hmaxk := firstByKeyDesc_max h m hm
          cases hlcd : last.completed_date with
          | none => simp [get_next_maintenance_date, intTruthy, hn, h0, h, hlcd]
          | some cdL =>
              exfalso
              have hlt : keyLt (reqKey last) (reqKey m) = true := by
                simp [keyLt, reqKey, hlcd, hmn, optLt]
              rw [hlt] at hmaxk
              cases hmaxk
    · intro m cd hnonull hmem hcd hmax
      cases h : firstByKeyDesc (completedPreventiveFor db e) with
      | none =>
          rw [firstByKeyDesc_eq_none.1 h] at hmem
          exact absurd hmem (List.not_mem_nil m)
      | some last =>
          have hlast_mem := firstByKeyDesc_mem h
          have hmaxk := firstByKeyDesc_max h m hmem
          cases hlcd : last.completed_date with
          | none => exact absurd hlcd (hnonull last hlast_mem)
          | some cdL =>
              have h1 : cdL ≤ cd := hmax last hlast_mem cdL hlcd
              have h2 : ¬ cdL < cd := by
                intro hlt
                have hk : keyLt (reqKey last) (reqKey m) = true := by
                  simp [keyLt, reqKey, hlcd, hcd, optLt, hlt]
                rw [hk] at hmaxk
                cases hmaxk
              have hEq : cdL = cd := le_antisymm h1 (not_lt.1 h2)
              subst hEq
              simp [get_next_maintenance_date, intTruthy, hn, h0, h, hlcd]

/-- C7 counterexample: `eqNegInterval` has no positive interval configured,
yet `get_next_maintenance_date` returns a date (purchase date minus one day)
rather than none. -/
theorem c7_counterexample :
    eqNegInterval.maintenance_interval_days = some (-1) ∧
    get_next_maintenance_date 738500 [] eqNegInterval = some 737999 :=
  ⟨rfl, rfl⟩

/-- C7 witness: with no prior completed Preventive requests,
`eqQuarterly` (interval 90, purchased 2023-01-15) is next due 2023-04-15. -/
theorem c7_witness :
    get_next_maintenance_date 738000 [] eqQuarterly = some (toOrdinal 2023 4 15) := by
  have h := (c7_next_maintenance_date.2 738000 [] eqQuarterly 90 rfl
    (by decide)).1 rfl
  rw [h]
  decide


/-- Membership characterization of the fuelled `while` loop: with a positive
interval and sufficient fuel, the generated dates are exactly the
`current + k * interval` that do not exceed the month's last day. -/
theorem intervalOccurrences_mem (interval endD : Int) (hpos : 0 < interval) :
    ∀ (fuel : Nat) (current d : Int),
      (endD < current ∨ (endD - current).toNat < fuel) →
      (d ∈ intervalOccurrences interval endD fuel current ↔
        (d ≤ endD ∧ ∃ k : ℕ, d = current + k * interval)) := by
  intro fuel
  induction fuel with
  | zero =>
      intro current d h
      have hc : ¬ current ≤ endD := by omega
      simp only [intervalOccurrences, List.not_mem_nil, false_iff]
      rintro ⟨hd, k, rfl⟩
      have hk : (0:ℤ) ≤ (k : ℤ) * interval :=
        mul_nonneg (by positivity) hpos.le
      linarith [not_le.1 hc]
  | succ fuel ih =>
      intro current d h
      by_cases hc : current ≤ endD
      · simp only [intervalOccurrences, if_pos hc, List.mem_cons]
        rw [ih (current + interval) d (by omega)]
        constructor
        · rintro (rfl | ⟨hd, k, rfl⟩)
          · exact ⟨hc, 0, by simp⟩
          · exact ⟨hd, k + 1, by push_cast; ring⟩
        · rintro ⟨hd, k, rfl⟩
          cases k with
          | zero => left; simp
          | succ j =>
              right
              exact ⟨hd, j, by push_cast; ring⟩
      · simp only [intervalOccurrences, if_neg hc, List.not_mem_nil, false_iff]
        rintro ⟨hd, k, rfl⟩
        have hk : (0:ℤ) ≤ (k : ℤ) * interval :=
          mul_nonneg (by positivity) hpos.le
        linarith

/-- A candidate occurrence date survives into `projectedDatesFor` exactly
when no explicit non-Scrap Preventive request exists for that equipment on
that date. -/
theorem projectedDatesFor_mem (today : Int) (db : List MaintenanceRequest)
    (e : Equipment) (endD : Int) (n next d : Int)
    (hn : e.maintenance_interval_days = some n) (hpos : 0 < n)
    (hnext : get_next_maintenance_date today db e = some next)
    (k : ℕ) (hd : d = next + k * n) (hend : d ≤ endD) :
    d ∈ projectedDatesFor today db e endD ↔
      hasExplicitNonScrap db e.id d = false := by
  have hk : (0:ℤ) ≤ (k : ℤ) * n := mul_nonneg (by positivity) hpos.le
  have hnextle : next ≤ d := by rw [hd]; linarith
  have hnextend : next ≤ endD := le_trans hnextle hend
  have hmem : d ∈ intervalOccurrences n endD (occFuel next endD) next :=
    (intervalOccurrences_mem n endD hpos (occFuel next endD) next d
      (Or.inr (by simp [occFuel]))).2 ⟨hend, k, hd⟩
  simp [projectedDatesFor, hnext, hn, if_pos hnextend, List.mem_filter, hmem]

/-- C8: a candidate projected occurrence date (`next + k*interval` within the
month) is suppressed iff an explicit non-Scrap Preventive request already
exists for that equipment on that exact date; otherwise the projected entry
appears in the calendar mapping on that date. -/
theorem c8_projected_occurrence_suppression :
    ∀ (today : Int) (db : List MaintenanceRequest) (equips : List Equipment)
      (y m : Nat) (e : Equipment) (n next d : Int) (k : ℕ),
      e.maintenance_interval_days = some n → 0 < n →
      get_next_maintenance_date today db e = some next →
      d = next + k * n → d ≤ toOrdinal y m (daysInMonth y m) →
      ((d ∈ projectedDatesFor today db e (toOrdinal y m (daysInMonth y m)) ↔
          hasExplicitNonScrap db e.id d = false) ∧
       (e ∈ eligibleEquipment equips →
        d ∈ projectedDatesFor today db e (toOrdinal y m (daysInMonth y m)) →
        intervalEntry e d ∈ requestsByDate today db equips y m d)) := by
  intro today db equips y m e n next d k hn hpos hnext hd hend
  constructor
  · exact projectedDatesFor_mem today db e _ n next d hn hpos hnext k hd hend
  · intro helig hproj
    have : intervalEntry e d ∈ (eligibleEquipment equips).flatMap
        (fun e2 => if d ∈ projectedDatesFor today db e2
            (toOrdinal y m (daysInMonth y m)) then [intervalEntry e2 d] else []) := by
      rw [List.mem_flatMap]
      exact ⟨e, helig, by simp [hproj]⟩
    simp only [requestsByDate]
    exact List.mem_append.2 (Or.inr this)

/-- C8 witness: with `eqMonthly` last serviced 2023-05-01 (interval 30) and
no explicit request on 2023-05-31, the May 2023 calendar carries a projected
occurrence on 2023-05-31. -/
theorem c8_witness :
    intervalEntry eqMonthly (toOrdinal 2023 5 31) ∈
      requestsByDate 738200 [reqMayService] [eqMonthly] 2023 5
        (toOrdinal 2023 5 31) := by
  have h := c8_projected_occurrence_suppression 738200 [reqMayService]
    [eqMonthly] 2023 5 eqMonthly 30 (toOrdinal 2023 5 1 + 30)
    (toOrdinal 2023 5 31) 0 rfl (by decide) (by decide) (by decide) (by decide)
  exact h.2 (by decide) (h.1.2 (by decide))


/-! ## C9 — distinct profile-missing gate failure -/

/-- C9: for an authenticated identity with no role record, both the
`role_required` decorator and the Admin/Manager mixin fail with the
profile-missing `PermissionDenied` message, which differs from the denial
message issued when the role is merely outside the permitted set. -/
theorem c9_profile_missing_distinct :
    (∀ (allowedRoles : List String) (role : String),
        roleRequiredGate allowedRoles true none =
          GateResult.permissionDenied profileMissingMsg ∧
        (role ∉ allowedRoles →
          roleRequiredGate allowedRoles true (some role) =
            GateResult.permissionDenied (roleDeniedMsg allowedRoles)) ∧
        profileMissingMsg ≠ roleDeniedMsg allowedRoles) ∧
    (∀ role : String,
        adminOrManagerDispatch true none =
          GateResult.permissionDenied profileMissingMsg ∧
        (role ∉ ["Admin", "Manager"] →
          adminOrManagerDispatch true (some role) =
            GateResult.permissionDenied
              "Only administrators and managers can access this page.") ∧
        profileMissingMsg ≠
          "Only administrators and managers can access this page.") := by
  constructor
  · intro allowedRoles role
    refine ⟨by simp [roleRequiredGate], fun h => by simp [roleRequiredGate, h], ?_⟩
    intro h
    rw [profileMissingMsg, roleDeniedMsg] at h
    have h2 := congrArg (fun t => t.data.head?) h
    simp [String.data_append] at h2
  · intro role
    refine ⟨by simp [adminOrManagerDispatch],
      fun h => by simp [adminOrManagerDispatch, h], ?_⟩
    intro h
    rw [profileMissingMsg] at h
    have h2 := congrArg (fun t => t.data.head?) h
    simp at h2

/-- C9 witness: a Technician hitting an Admin/Manager-gated operation gets
the ordinary role denial, not the profile-missing condition. -/
theorem c9_witness :
    roleRequiredGate ["Admin", "Manager"] true (some "Technician") =
      GateResult.permissionDenied (roleDeniedMsg ["Admin", "Manager"]) ∧
    adminOrManagerDispatch true (some "Technician") =
      GateResult.permissionDenied
        "Only administrators and managers can access this page." :=
  ⟨(c9_profile_missing_distinct.1 ["Admin", "Manager"] "Technician").2.1
      (by decide),
   (c9_profile_missing_distinct.2 "Technician").2.1 (by decide)⟩

end GearGuard
